import Mathlib

/-!
Verification of the "pointlessly" reactive UI runtime.

This file gives a shallow embedding of the core runtime
(`src/lib/pointlessly.ts` and `src/util/general.ts`): the signal cell
produced by `signalFactory`, the custom-component runtime produced by `$`
(its `$signal` hook slots, `$mount`, `reload`, `destroy`), and the three
structural primitives `$bind`, `$if` and `$for`.  Stateful closures are
defunctionalized into explicit state records; calls that reach the host
document (render / replace / append / destroy on child components) are
recorded as operations in an explicit trace so that theorems can count
them.  Identities that in the source are fresh random ids (`createId`)
or object references are modelled as natural numbers.
-/

namespace Pointlessly

/-! ### Signals (`signalFactory`)

A signal owns a current value and a JS `Set` of subscriber callbacks.
Subscribers are identified by numeric ids; the `Set` is modelled as a
duplicate-free list kept in insertion order (JS `Set` iterates in
insertion order and `add` ignores duplicates). -/

abbrev ListenerId := Nat

structure Signal (V : Type) where
  value : V
  listeners : List ListenerId
deriving Repr, DecidableEq

/-- JS `Set.add`: appends unless already present. -/
def listenersAdd (ls : List ListenerId) (l : ListenerId) : List ListenerId :=
  if l ∈ ls then ls else ls ++ [l]

/-- The argument of `write`: either a plain value or an updater function
(the source dispatches on `isFunction(newValue)`). -/
inductive WriteArg (V : Type) where
  | val (v : V)
  | upd (f : V → V)

/-- Source `read`: returns the current value; when a tracked listener is
active in the signal context it is registered as a subscriber (the
accompanying unsubscriber accumulation is not needed for the claims
below).  Returns the value together with the updated signal. -/
def Signal.read (ctx : Option ListenerId) (s : Signal V) : V × Signal V :=
  match ctx with
  | some l => (s.value, { s with listeners := listenersAdd s.listeners l })
  | none => (s.value, s)

/-- Source `write`: stores the new value (or applies the updater to the
current one), then invokes every subscriber once, in insertion order.
Returns the updated signal together with the notification trace: the
ids of the listeners invoked, in order. -/
def Signal.write (s : Signal V) (a : WriteArg V) : Signal V × List ListenerId :=
  let v := match a with
    | .val v => v
    | .upd f => f s.value
  ({ s with value := v }, s.listeners)

lemma listenersAdd_nodup {ls : List ListenerId} (h : ls.Nodup) (l : ListenerId) :
    (listenersAdd ls l).Nodup := by
  unfold listenersAdd
  split
  · exact h
  · simpa [List.nodup_append] using ⟨h, by assumption⟩

lemma mem_listenersAdd (ls : List ListenerId) (l : ListenerId) :
    l ∈ listenersAdd ls l := by
  unfold listenersAdd
  split
  · assumption
  · simp

/-- Claim C2: after `write(v2)` following `write(v1)` on the same signal,
`read()` returns `v2`; and a subscriber registered by reading the signal
inside a tracked context is invoked exactly once by any subsequent
`write` — the notification trace mentions it exactly once, whatever the
written value (no value-equality short-circuit) — and the write leaves
the subscriber set unchanged, so the same holds for every later write. -/
theorem signal_write_then_read_and_notify_once {V : Type} (s : Signal V)
    (v1 v2 : V) (l : ListenerId) (a : WriteArg V) (hnd : s.listeners.Nodup) :
    (((s.write (.val v1)).1.write (.val v2)).1.read none).1 = v2
    ∧ ((s.read (some l)).2.write a).2.count l = 1
    ∧ ((s.read (some l)).2.write a).1.listeners = (s.read (some l)).2.listeners := by
  refine ⟨rfl, ?_, rfl⟩
  simp only [Signal.read, Signal.write]
  exact List.count_eq_one_of_mem (listenersAdd_nodup hnd l) (mem_listenersAdd s.listeners l)

/-- Concrete instantiation of `signal_write_then_read_and_notify_once`:
the signal starts at value `0` with no subscribers, listener `5`
registers via a tracked read, and the write stores `0`, equal to the
prior value, yet the listener is still notified exactly once. -/
theorem signal_write_then_read_and_notify_once_witness :
    (([] : List ListenerId).Nodup)
    ∧ ((((⟨0, []⟩ : Signal Nat).write (.val 1)).1.write (.val 2)).1.read none).1 = 2
    ∧ (((⟨0, []⟩ : Signal Nat).read (some 5)).2.write (.val 0)).2.count 5 = 1
    ∧ (((⟨0, []⟩ : Signal Nat).read (some 5)).2.write (.val 0)).1.listeners
        = ((⟨0, []⟩ : Signal Nat).read (some 5)).2.listeners :=
  ⟨by decide, signal_write_then_read_and_notify_once ⟨0, []⟩ 1 2 5 (.val 0) (by decide)⟩

/-! ### Reactive binding (`$bind`)

`$bind` keeps a mutable `component` variable and a `rerender` closure:

    const rerender = () => {
      if (component) { component.render(); }
      else { component = renderFn(); }
      return component;
    };

At construction it registers `rerender` as the tracked listener, runs
`component = renderFn()` and `component.render()` once.  Each signal
notification afterwards calls `rerender`.  Components are identified by
numeric ids; since the callback may build a fresh component on every
invocation, it is modelled as a function from its invocation index to
the id of the produced component. -/

abbrev CompId := Nat

structure BindState where
  component : Option CompId
  callbackCount : Nat
deriving Repr, DecidableEq

/-- Observable operations of the `$bind` rerender path: the callback
`renderFn` was invoked (producing a component), or the cached
component's own `render()` was called, or its `replace` was called. -/
inductive BindOp where
  | callbackInvoked (c : CompId)
  | childRendered (c : CompId)
  | childReplaced (oldC newC : CompId)
deriving Repr, DecidableEq

/-- Source `rerender` inside `$bind`: when a component is cached it only
calls `component.render()`; only when the cache is empty does it invoke
the callback. -/
def bindRerender (f : Nat → CompId) (s : BindState) : BindState × List BindOp :=
  match s.component with
  | some c => (s, [.childRendered c])
  | none =>
      let c := f s.callbackCount
      ({ component := some c, callbackCount := s.callbackCount + 1 }, [.callbackInvoked c])

/-- Construction of a `$bind` (source lines `component = renderFn()` then
`component.render()` under the tracked listener). -/
def bindInit (f : Nat → CompId) : BindState × List BindOp :=
  let c := f 0
  ({ component := some c, callbackCount := 1 }, [.callbackInvoked c, .childRendered c])

/-- A sequence of `n` signal notifications, each calling `rerender`. -/
def bindNotify (f : Nat → CompId) : Nat → BindState → BindState × List BindOp
  | 0, s => (s, [])
  | n + 1, s =>
      let (s1, ops1) := bindRerender f s
      let (s2, ops2) := bindNotify f n s1
      (s2, ops1 ++ ops2)

/-- Claim C1 counterexample: take `renderFn` to be the callback whose
`k`-th invocation produces component `k` (so a re-invocation would
produce component `1`, different from the cached component `0`).  After
construction, one signal notification leaves the callback invoked only
once and only calls `render()` on the cached component: the callback is
not re-invoked and no `replace` happens, contradicting the claim. -/
theorem bind_notification_counterexample :
    (bindNotify (fun k => k) 1 (bindInit (fun k => k)).1).1.callbackCount = 1
    ∧ (bindNotify (fun k => k) 1 (bindInit (fun k => k)).1).2
        = [BindOp.childRendered 0] := by
  constructor <;> rfl

/-- Claim C1 amended: after construction the callback is never
re-invoked and `replace` is never called by the notification path; every
notification merely calls `render()` on the component cached from the
single initial callback invocation (that component's own `render`
re-creates and swaps its display node itself). -/
theorem bind_notification_cached_render (f : Nat → CompId) (n : Nat) :
    (bindNotify f n (bindInit f).1).1 = (bindInit f).1
    ∧ (bindNotify f n (bindInit f).1).2
        = List.replicate n (BindOp.childRendered (f 0)) := by
  induction n with
  | zero => exact ⟨rfl, rfl⟩
  | succ n ih =>
      refine ⟨?_, ?_⟩
      · simpa [bindNotify, bindInit, bindRerender] using ih.1
      · simpa [bindNotify, bindInit, bindRerender, List.replicate_succ] using ih.2

/-! ### Conditional renderer (`$if`)

`$if(condition)(whenTrue, whenFalse)` keeps a mutable `component` and a
`rerender` closure:

    const rerender = () => {
      const renderResult = condition() ? whenTrue : whenFalse ?? createEmptyComponent();
      if (component && component !== renderResult) {
        component.replace(renderResult);
        component.destroy();
        component = renderResult;
      }
      return renderResult;
    };

`createEmptyComponent()` builds a fresh placeholder on every call; this
is modelled by a `nextId` counter whose values stand for fresh ids.
`replaceCount`/`destroyCount` count the `replace`/`destroy` calls made
on the previously active branch. -/

structure IfState where
  component : Option CompId
  nextId : CompId
  replaceCount : Nat
  destroyCount : Nat
deriving Repr, DecidableEq

/-- Source `rerender` inside `$if`: pick the branch (creating a fresh
placeholder when the predicate is false and no false branch was given);
if an active component exists and differs from the pick, replace and
destroy it and make the pick active.  Returns the new state and the
picked component. -/
def ifRerender (whenTrue : CompId) (whenFalse : Option CompId) (cond : Bool)
    (s : IfState) : IfState × CompId :=
  let (renderResult, s1) :=
    if cond then (whenTrue, s)
    else
      match whenFalse with
      | some wf => (wf, s)
      | none => (s.nextId, { s with nextId := s.nextId + 1 })
  match s1.component with
  | some c =>
      if c ≠ renderResult then
        ({ s1 with component := some renderResult,
                   replaceCount := s1.replaceCount + 1,
                   destroyCount := s1.destroyCount + 1 }, renderResult)
      else (s1, renderResult)
  | none => (s1, renderResult)

/-- Construction of an `$if` (source: `component = rerender()` under the
tracked listener, starting from a null component).  `firstFresh` is the
first id `createEmptyComponent` would hand out. -/
def ifInit (whenTrue : CompId) (whenFalse : Option CompId) (cond : Bool)
    (firstFresh : CompId) : IfState :=
  let st := ifRerender whenTrue whenFalse cond ⟨none, firstFresh, 0, 0⟩
  { st.1 with component := some st.2 }

/-- One signal notification of an `$if` (the listener's return value is
discarded). -/
def ifNotify (whenTrue : CompId) (whenFalse : Option CompId) (cond : Bool)
    (s : IfState) : IfState :=
  (ifRerender whenTrue whenFalse cond s).1

/-- Claim C7 counterexample: `whenTrue` is component `0`, the false
branch is absent, and the predicate evaluates to `false` on both of two
consecutive notifications after construction (fresh placeholder ids from
`10`).  Each notification builds a fresh placeholder, so the active
component is replaced (and destroyed) both times even though the
predicate's boolean never changed. -/
theorem if_absent_false_branch_replace_counterexample :
    (ifNotify 0 none false (ifNotify 0 none false (ifInit 0 none false 10))).replaceCount = 2
    ∧ (ifNotify 0 none false (ifNotify 0 none false (ifInit 0 none false 10))).destroyCount = 2 := by
  constructor <;> rfl

/-- Claim C7 amended: when the branch selected by the predicate is a
component that was supplied to `$if` (the true branch, or a provided
false branch) and it is already the active component — as after a prior
notification with the same boolean — `rerender` performs no replace and
no destroy and leaves the state untouched, preserving the branch
instance and its internal state.  (When the false branch is absent and
the predicate is false, a fresh placeholder replaces the active one on
every notification, as the counterexample shows.) -/
theorem if_branch_stable_when_branch_present (whenTrue : CompId)
    (whenFalse : Option CompId) (cond : Bool) (s : IfState) (r : CompId)
    (hr : (if cond then some whenTrue else whenFalse) = some r)
    (hc : s.component = some r) :
    ifRerender whenTrue whenFalse cond s = (s, r) := by
  cases cond with
  | true =>
      simp only [if_pos, Option.some.injEq] at hr
      simp [ifRerender, hc, hr]
  | false =>
      simp only [Bool.false_eq_true, if_neg, not_false_eq_true] at hr
      subst hr
      simp [ifRerender, hc]

/-- Concrete instantiation of `if_branch_stable_when_branch_present`:
both branches provided (`whenTrue = 0`, `whenFalse = 1`), predicate
false, active component already the false branch: notification changes
nothing. -/
theorem if_branch_stable_witness :
    ((if false then some 0 else some 1) = some 1
      ∧ (⟨some 1, 10, 0, 0⟩ : IfState).component = some 1)
    ∧ ifRerender 0 (some 1) false ⟨some 1, 10, 0, 0⟩ = (⟨some 1, 10, 0, 0⟩, 1) :=
  ⟨⟨by decide, by decide⟩,
    if_branch_stable_when_branch_present 0 (some 1) false ⟨some 1, 10, 0, 0⟩ 1
      (by decide) (by decide)⟩

/-! ### List renderer (`$for`)

`$for(items, renderItem)` keeps a `components` array and reconciles it
positionally against the freshly built `newComponents` on every
notification.  Child components are either custom components (carrying
the `serial` of their `$` definition, an instance identity and a props
object — `isCustomComponent` requires `props` to be an object, so a
custom component with void props behaves like a plain one here) or
plain components (intrinsic elements, placeholders, nested
structurals).  Props are an abstract type `P`. -/

inductive Comp (P : Type) where
  | custom (serial : Nat) (inst : Nat) (props : P)
  | plain (inst : Nat)
deriving Repr, DecidableEq

def Comp.instId : Comp P → Nat
  | .custom _ i _ => i
  | .plain i => i

/-- Calls the reconciliation loop makes on child components. -/
inductive ForOp (P : Type) where
  | reloadOp (inst : Nat) (newProps : P)
  | replaceOp (oldInst newInst : Nat)
  | appendOp (afterInst newInst : Nat)
  | destroyOp (inst : Nat)
deriving Repr, DecidableEq

/-- One step of the both-indices-present branch of the loop: if both
entries are custom components sharing a serial, `reload` the old one
with the new props and keep the old instance; otherwise `replace` the
old with the new and keep the new. -/
def stepBoth (prev next : Comp P) : Comp P × ForOp P :=
  match prev, next with
  | .custom sp ip pp, .custom sn jn pn =>
      if sp = sn then (.custom sp ip pp, .reloadOp ip pn)
      else (.custom sn jn pn, .replaceOp ip jn)
  | prev, next => (next, .replaceOp prev.instId next.instId)

/-- The grown tail of the loop (`i < newComponentsLength` only): each
new entry is appended after the previously reconciled entry and then
itself becomes the anchor for the next append. -/
def growAppend (lastKept : Comp P) : List (Comp P) → List (Comp P) × List (ForOp P)
  | [] => ([], [])
  | next :: news =>
      let rest := growAppend next news
      (next :: rest.1, ForOp.appendOp lastKept.instId next.instId :: rest.2)

/-- The reconciliation loop of `$for`'s `rerender` (indices `0` to
`max(old.length, new.length) - 1`), with `lastKept` the most recently
reconciled entry (needed by the growth branch; it is `none` only before
the first step, and the loop is entered only when the old list is
non-empty, so the growth branch always finds an anchor). -/
def reconcilePairs : List (Comp P) → List (Comp P) → Option (Comp P) →
    List (Comp P) × List (ForOp P)
  | prev :: olds, next :: news, _ =>
      let st := stepBoth prev next
      let rest := reconcilePairs olds news (some st.1)
      (st.1 :: rest.1, st.2 :: rest.2)
  | prev :: olds, [], _ =>
      ([], (prev :: olds).map (fun c => ForOp.destroyOp c.instId))
  | [], news, lastKept =>
      match lastKept with
      | some lk => growAppend lk news
      | none => ([], [])

/-- `$for`'s `rerender`: when components already exist, reconcile
against them; otherwise adopt the fresh list; in either case an empty
result is replaced by a single fresh placeholder (`createEmptyComponent`,
modelled as a plain component with id `emptyId`). -/
def forRerender (olds news : List (Comp P)) (emptyId : Nat) :
    List (Comp P) × List (ForOp P) :=
  let st :=
    if olds.length > 0 then reconcilePairs olds news none
    else (news, [])
  if st.1.length = 0 then ([Comp.plain emptyId], st.2) else st

lemma reconcilePairs_same_serial {P : Type} (s : Nat) :
    ∀ (oldPs newPs : List (Nat × P)) (lk : Option (Comp P)),
      oldPs.length = newPs.length →
      reconcilePairs (oldPs.map fun x => Comp.custom s x.1 x.2)
          (newPs.map fun x => Comp.custom s x.1 x.2) lk
        = (oldPs.map fun x => Comp.custom s x.1 x.2,
           List.zipWith (fun o n => ForOp.reloadOp o.1 n.2) oldPs newPs)
  | [], [], lk, _ => by cases lk <;> simp [reconcilePairs, growAppend]
  | o :: os, n :: ns, lk, hlen => by
      have ih := reconcilePairs_same_serial s os ns (some (Comp.custom s o.1 o.2))
        (by simpa using hlen)
      simp [reconcilePairs, stepBoth, ih]

/-- Claim C3: for a `$for` list of custom components built from the same
`$` definition (one shared serial), reconciliation is positional: with
equally long old and new lists, the reconciled list is exactly the old
list — the instance (and hence the internal state) previously at each
index stays at that index — and the operation trace is exactly one
`reload` per index, on the old instance, with the new item's props.  In
particular state does not follow the items under reordering. -/
theorem for_reconcile_positional_same_serial {P : Type} (s : Nat)
    (oldPs newPs : List (Nat × P)) (e : Nat)
    (hlen : oldPs.length = newPs.length) (hne : oldPs ≠ []) :
    forRerender (oldPs.map fun x => Comp.custom s x.1 x.2)
        (newPs.map fun x => Comp.custom s x.1 x.2) e
      = (oldPs.map fun x => Comp.custom s x.1 x.2,
         List.zipWith (fun o n => ForOp.reloadOp o.1 n.2) oldPs newPs) := by
  have hrec := reconcilePairs_same_serial s oldPs newPs none hlen
  have hlen0 : 0 < oldPs.length := List.length_pos.mpr hne
  simp [forRerender, hrec, List.length_eq_zero, hne, hlen0]

/-- Concrete instantiation of `for_reconcile_positional_same_serial`:
three same-definition items whose props carry counters `[1,2,3]`,
reordered to `[3,1,2]`.  The old instances `10,11,12` are kept at
positions `0,1,2` (position 0 keeps the instance that was at position
0), each reloaded with the reordered props. -/
theorem for_reconcile_positional_same_serial_witness :
    (([(10, 1), (11, 2), (12, 3)] : List (Nat × Nat)).length
        = ([(20, 3), (21, 1), (22, 2)] : List (Nat × Nat)).length
      ∧ ([(10, 1), (11, 2), (12, 3)] : List (Nat × Nat)) ≠ [])
    ∧ forRerender
        [Comp.custom 7 10 1, Comp.custom 7 11 2, Comp.custom 7 12 3]
        [Comp.custom 7 20 3, Comp.custom 7 21 1, Comp.custom 7 22 2] 99
      = ([Comp.custom 7 10 1, Comp.custom 7 11 2, Comp.custom 7 12 3],
         [ForOp.reloadOp 10 3, ForOp.reloadOp 11 1, ForOp.reloadOp 12 2]) :=
  ⟨⟨by decide, by decide⟩, by
    have h := for_reconcile_positional_same_serial 7
      [(10, 1), (11, 2), (12, 3)] [(20, 3), (21, 1), (22, 2)] 99
      (by decide) (by decide)
    simpa using h⟩

/-- Claim C4 counterexample: when `renderItem` produces plain (non-custom)
components, growing the backing array from one item to two makes a
`replace` call on the retained index 0 (the old plain component is
replaced by the freshly built one) in addition to the `append` — not
"exactly one append and zero replace/destroy calls" as claimed. -/
theorem for_growth_plain_replace_counterexample :
    forRerender ([Comp.plain 0] : List (Comp Unit)) [Comp.plain 1, Comp.plain 2] 99
      = ([Comp.plain 1, Comp.plain 2],
         [ForOp.replaceOp 0 1, ForOp.appendOp 1 2]) := by
  rfl

/-- Claim C4 amended: for a `$for` list whose entries are custom
components sharing one serial, growth `[a] → [a,b]` produces exactly
one `append` and zero `replace`/`destroy` calls — the retained index
receives only a `reload` with the new item's props — and shrink
`[a,b] → [a]` produces exactly one `destroy`, on the removed trailing
item's instance, and zero `replace`/`append` calls, the retained item
again receiving only a `reload`.  (With non-custom entries the retained
index incurs a `replace` instead, per the counterexample.) -/
theorem for_growth_shrink_custom_ops {P : Type} (s i0 i1 i2 : Nat)
    (p0 p1 p2 : P) (e1 e2 : Nat) :
    forRerender [Comp.custom s i0 p0]
        [Comp.custom s i1 p1, Comp.custom s i2 p2] e1
      = ([Comp.custom s i0 p0, Comp.custom s i2 p2],
         [ForOp.reloadOp i0 p1, ForOp.appendOp i0 i2])
    ∧ forRerender [Comp.custom s i0 p0, Comp.custom s i1 p1]
        [Comp.custom s i2 p2] e2
      = ([Comp.custom s i0 p0],
         [ForOp.reloadOp i0 p2, ForOp.destroyOp i1]) := by
  constructor <;>
    simp [forRerender, reconcilePairs, stepBoth, growAppend, Comp.instId]

/-! ### `replace` / `append` of the structural primitives

Each structural primitive's own `replace` and `append` only delegate to
the current child component(s), guarded by the child's existence.  The
delegated calls are recorded as a trace; the primitive's own state is
never modified by these operations in the source. -/

inductive DelegOp where
  | childReplace (child newC : CompId)
  | childAppend (child newC : CompId)
  | childDestroy (child : CompId)
deriving Repr, DecidableEq

/-- `$bind`'s `replace`: `if (component) component.replace(newComponent)`. -/
def bindReplace (component : Option CompId) (newC : CompId) : List DelegOp :=
  match component with
  | some c => [.childReplace c newC]
  | none => []

/-- `$bind`'s `append`: `if (component) component.append(newComponent)`. -/
def bindAppend (component : Option CompId) (newC : CompId) : List DelegOp :=
  match component with
  | some c => [.childAppend c newC]
  | none => []

/-- `$if`'s `replace` (same guard as `$bind`'s). -/
def ifReplace (component : Option CompId) (newC : CompId) : List DelegOp :=
  match component with
  | some c => [.childReplace c newC]
  | none => []

/-- `$if`'s `append` (same guard as `$bind`'s). -/
def ifAppend (component : Option CompId) (newC : CompId) : List DelegOp :=
  match component with
  | some c => [.childAppend c newC]
  | none => []

/-- `$for`'s `replace`: when components exist, replace the first and
destroy them all; otherwise nothing ("handle if no components"). -/
def forReplace (components : List (Comp P)) (newC : CompId) : List DelegOp :=
  if components.length > 0 then
    (match components.head? with
      | some first => [DelegOp.childReplace first.instId newC]
      | none => [])
    ++ components.map (fun c => DelegOp.childDestroy c.instId)
  else []

/-- `$for`'s `append`: when components exist, append after the last. -/
def forAppend (components : List (Comp P)) (newC : CompId) : List DelegOp :=
  if components.length > 0 then
    match components.getLast? with
    | some last => [DelegOp.childAppend last.instId newC]
    | none => []
  else []

/-- Claim C8: calling `replace` or `append` on any of the three
structural primitives when it has no current live child (`component`
null for `$bind`/`$if`, empty `components` array for `$for`) is a
no-op: the delegation trace is empty — no child call, no document
change — no error is raised, and (as in the source, where these
operations never assign any state) no state changes. -/
theorem structural_replace_append_noop_when_empty {P : Type} (newC : CompId) :
    bindReplace none newC = [] ∧ bindAppend none newC = []
    ∧ ifReplace none newC = [] ∧ ifAppend none newC = []
    ∧ forReplace ([] : List (Comp P)) newC = []
    ∧ forAppend ([] : List (Comp P)) newC = [] := by
  refine ⟨rfl, rfl, rfl, rfl, ?_, ?_⟩ <;> simp [forReplace, forAppend]

/-! ### Custom components: props comparison and `reload`

`isSameProps` (from `src/util/general.ts`) compares two prop objects:
same number of own keys, and for every key of `a`, `Object.is(a[key],
b[key])`.  A prop object is a list of key/value entries with unique
keys (as JS objects have); `b[key]` for an absent key is `undefined`,
modelled as `none`.  Prop values are an abstract type `V` with
decidable equality standing for `Object.is`. -/

def jsLookup {V : Type} (ps : List (String × V)) (k : String) : Option V :=
  (ps.find? fun p => p.1 == k).map Prod.snd

def isSameProps {V : Type} [DecidableEq V] (a b : List (String × V)) : Bool :=
  if a.length ≠ b.length then false
  else a.all fun p => decide (jsLookup b p.1 = some p.2)

/-- The per-instance state that `reload` manipulates.  Props of a void
(`undefined`) props component are `none`.  `renderCount` counts the
invocations of the user render function; `replaceWithCount` counts the
`lastRenderResult.replaceWith(render())` node swaps; `lastRenderResult`
is the id of the currently rendered node (or `none` before the first
render). -/
structure ReloadState (V : Type) where
  propsPrev : Option (List (String × V))
  propsCurr : Option (List (String × V))
  lastRenderResult : Option Nat
  renderCount : Nat
  replaceWithCount : Nat
deriving Repr, DecidableEq

/-- Source `hasSameProps`: `propStore.prev && propStore.curr &&
isSameProps(prev, curr)` — falsy whenever either snapshot is
`undefined`. -/
def hasSameProps {V : Type} [DecidableEq V] (s : ReloadState V) : Bool :=
  match s.propsPrev, s.propsCurr with
  | some p, some c => isSameProps p c
  | _, _ => false

/-- Source `reload`: shift the prop snapshots (`updateProps`), then, if
a rendered node exists and `hasSameProps()` is false, re-invoke the
render function and replace the old node with the freshly produced node
(`freshNode` stands for the node the re-render yields). -/
def reload {V : Type} [DecidableEq V] (s : ReloadState V)
    (newProps : Option (List (String × V))) (freshNode : Nat) : ReloadState V :=
  let s1 : ReloadState V :=
    { s with propsPrev := s.propsCurr, propsCurr := newProps }
  match s1.lastRenderResult with
  | some _ =>
      if hasSameProps s1 then s1
      else
        { s1 with
          renderCount := s1.renderCount + 1,
          replaceWithCount := s1.replaceWithCount + 1,
          lastRenderResult := some freshNode }
  | none => s1

/-- Claim C5: on a rendered custom component instance whose current
props snapshot is the object `p`, `reload` with new props `q` skips the
re-render entirely when `q` is shallow-equal to `p` (`isSameProps`:
same own key set, each value `Object.is`-equal) — the render function
is not invoked and the rendered node is left unchanged — and otherwise
re-invokes the render function once and replaces the previous node with
the new one. -/
theorem reload_props_memoization {V : Type} [DecidableEq V]
    (s : ReloadState V) (p q : List (String × V)) (n freshNode : Nat)
    (hc : s.propsCurr = some p) (hn : s.lastRenderResult = some n) :
    reload s (some q) freshNode =
      if isSameProps p q then
        { s with propsPrev := some p, propsCurr := some q }
      else
        { s with propsPrev := some p, propsCurr := some q,
                 renderCount := s.renderCount + 1,
                 replaceWithCount := s.replaceWithCount + 1,
                 lastRenderResult := some freshNode } := by
  simp only [reload, hc, hn, hasSameProps]

/-- Concrete instantiation of `reload_props_memoization`: an instance
with props `{x: 1, y: 2}` and rendered node `7`, reloaded once with a
fresh but `Object.is`-equal prop object (no re-render, node stays `7`)
— instantiating the shallow-equal arm of the conclusion. -/
theorem reload_props_memoization_witness :
    ((⟨some [("x", 1), ("y", 2)], some [("x", 1), ("y", 2)], some 7, 1, 0⟩ :
        ReloadState Nat).propsCurr = some [("x", 1), ("y", 2)]
      ∧ (⟨some [("x", 1), ("y", 2)], some [("x", 1), ("y", 2)], some 7, 1, 0⟩ :
          ReloadState Nat).lastRenderResult = some 7)
    ∧ reload (⟨some [("x", 1), ("y", 2)], some [("x", 1), ("y", 2)], some 7, 1, 0⟩ :
          ReloadState Nat) (some [("x", 1), ("y", 2)]) 8
      = if isSameProps [("x", 1), ("y", 2)] [("x", 1), ("y", 2)] then
          (⟨some [("x", 1), ("y", 2)], some [("x", 1), ("y", 2)], some 7, 1, 0⟩ :
            ReloadState Nat)
        else
          ⟨some [("x", 1), ("y", 2)], some [("x", 1), ("y", 2)], some 8, 2, 1⟩ :=
  ⟨⟨rfl, rfl⟩,
    reload_props_memoization
      ⟨some [("x", 1), ("y", 2)], some [("x", 1), ("y", 2)], some 7, 1, 0⟩
      [("x", 1), ("y", 2)] [("x", 1), ("y", 2)] 7 8 rfl rfl⟩

lemma hasSameProps_none {V : Type} [DecidableEq V] (t : ReloadState V)
    (h : t.propsPrev = none ∨ t.propsCurr = none) : hasSameProps t = false := by
  unfold hasSameProps
  rcases h with h | h
  · rw [h]
  · rw [h]; cases t.propsPrev <;> rfl

/-- Claim C9: on a rendered instance, whenever either prop snapshot is
`undefined` — in particular for a component definition with void props,
where both are always `undefined` — `hasSameProps` is falsy, so every
`reload` re-invokes the render function and replaces the rendered node,
even when the new props equal the old ones. -/
theorem reload_void_props_always_rerenders {V : Type} [DecidableEq V]
    (s : ReloadState V) (newProps : Option (List (String × V)))
    (n freshNode : Nat)
    (h : s.propsCurr = none ∨ newProps = none)
    (hn : s.lastRenderResult = some n) :
    reload s newProps freshNode =
      { s with propsPrev := s.propsCurr, propsCurr := newProps,
               renderCount := s.renderCount + 1,
               replaceWithCount := s.replaceWithCount + 1,
               lastRenderResult := some freshNode } := by
  have hfalse : hasSameProps
      ({ propsPrev := s.propsCurr, propsCurr := newProps,
         lastRenderResult := some n, renderCount := s.renderCount,
         replaceWithCount := s.replaceWithCount } : ReloadState V) = false := by
    apply hasSameProps_none
    rcases h with h | h
    · exact Or.inl h
    · exact Or.inr h
  simp [reload, hn, hfalse]

/-- Concrete instantiation of `reload_void_props_always_rerenders`: a
void-props instance (both snapshots `undefined`, rendered node `3`,
one render so far) reloaded with `undefined` props — equal to the old —
still re-renders and swaps the node. -/
theorem reload_void_props_always_rerenders_witness :
    (((⟨none, none, some 3, 1, 0⟩ : ReloadState Nat).propsCurr = none
        ∨ (none : Option (List (String × Nat))) = none)
      ∧ (⟨none, none, some 3, 1, 0⟩ : ReloadState Nat).lastRenderResult = some 3)
    ∧ reload (⟨none, none, some 3, 1, 0⟩ : ReloadState Nat) none 4
      = ⟨none, none, some 4, 2, 1⟩ :=
  ⟨⟨Or.inl rfl, rfl⟩,
    reload_void_props_always_rerenders ⟨none, none, some 3, 1, 0⟩ none 3 4
      (Or.inl rfl) rfl⟩

/-! ### `$mount` and destroy-time cleanup

`$mount(effect)` runs the effect body only when `hasRendered` is still
false; `hasRendered` becomes true at the end of the first `render()`
pass (after the user render function, and with it `$mount`, has run).
A returned cleanup is added to the `unmounts` set; `destroy`
(`onDestroy`) runs every retained cleanup.  The state below tracks one
`$mount` call site within the instance's render function. -/

structure MountState where
  hasRendered : Bool
  effectRuns : Nat
  cleanupRetained : Bool
  cleanupRuns : Nat
deriving Repr, DecidableEq

def mountInit : MountState := ⟨false, 0, false, 0⟩

/-- One `render()` pass of the instance: the render function runs (its
`$mount` call executes the effect body only if `hasRendered` is false,
retaining the returned cleanup if any), then `hasRendered` is set. -/
def renderPass (returnsCleanup : Bool) (s : MountState) : MountState :=
  let s1 :=
    if s.hasRendered then s
    else
      { s with effectRuns := s.effectRuns + 1,
               cleanupRetained := s.cleanupRetained || returnsCleanup }
  { s1 with hasRendered := true }

/-- `n` successive `render()` passes (initial render plus re-renders
from `reload`). -/
def renderN (returnsCleanup : Bool) : Nat → MountState → MountState
  | 0, s => s
  | n + 1, s => renderN returnsCleanup n (renderPass returnsCleanup s)

/-- Source `onDestroy`: runs every retained mount cleanup (here, the one
cleanup of the tracked `$mount` call, if it was retained). -/
def destroyInst (s : MountState) : MountState :=
  { s with cleanupRuns := s.cleanupRuns + (if s.cleanupRetained then 1 else 0) }

lemma renderPass_of_hasRendered {c : Bool} {s : MountState}
    (h : s.hasRendered = true) : renderPass c s = s := by
  cases s
  simp_all [renderPass]

lemma renderN_of_hasRendered (c : Bool) (n : Nat) {s : MountState}
    (h : s.hasRendered = true) : renderN c n s = s := by
  induction n with
  | zero => rfl
  | succ n ih => rw [renderN, renderPass_of_hasRendered h, ih]

/-- Claim C6: across `N ≥ 1` renders of a custom component instance, a
`$mount` effect's body executes exactly once (on the first render
only), and its returned cleanup executes exactly once when the instance
is destroyed, whatever `N`. -/
theorem mount_once_cleanup_once (returnsCleanup : Bool) (n : Nat)
    (hn : 1 ≤ n) :
    (renderN returnsCleanup n mountInit).effectRuns = 1
    ∧ (destroyInst (renderN true n mountInit)).cleanupRuns = 1 := by
  obtain ⟨m, rfl⟩ := Nat.exists_eq_add_of_le hn
  constructor
  · rw [Nat.add_comm, renderN, renderN_of_hasRendered _ _ (by rfl)]
    cases returnsCleanup <;> rfl
  · rw [Nat.add_comm, renderN, renderN_of_hasRendered _ _ (by rfl)]
    rfl

/-- Concrete instantiation of `mount_once_cleanup_once` at `N = 3`:
three renders, one effect run, one cleanup run at destroy. -/
theorem mount_once_cleanup_once_witness :
    1 ≤ 3
    ∧ (renderN true 3 mountInit).effectRuns = 1
    ∧ (destroyInst (renderN true 3 mountInit)).cleanupRuns = 1 :=
  ⟨by decide, mount_once_cleanup_once true 3 (by decide)⟩

/-! ### `$signal` hook slots

Each instance owns a `signals` array indexed by `signalIndex`, which is
reset to `0` at the start of every `render()` and `reload()` and
incremented by each `$signal` call.  A JS array is modelled as a list
of optional entries (`none` is a hole / `undefined`); `signals[i]` for
`i` beyond the length is `undefined` too. -/

/-- JS array element assignment `xs[i] = v`, extending with holes when
`i` is past the end. -/
def jsArraySet {α : Type} (xs : List (Option α)) (i : Nat) (v : α) :
    List (Option α) :=
  if i < xs.length then xs.set i (some v)
  else xs ++ List.replicate (i - xs.length) none ++ [some v]

/-- Source `$signal(initialValue)`: if a signal already sits in the
current slot, return it (the new initial value is never consulted);
otherwise create a signal from the initial value and store it in the
slot.  Either way the slot index advances.  Returns the updated array,
the next index, and the signal handed to the render function (the
source wraps it in `createRenderSignal`, a tuple of its own `read`,
`write`, `subscribe` and `unsubscribe` — the same underlying signal). -/
def dollarSignal {V : Type} (signals : List (Option (Signal V)))
    (signalIndex : Nat) (initialValue : V) :
    List (Option (Signal V)) × Nat × Signal V :=
  match (signals[signalIndex]?).getD none with
  | some s => (signals, signalIndex + 1, s)
  | none =>
      let s : Signal V := ⟨initialValue, []⟩
      (jsArraySet signals signalIndex s, signalIndex + 1, s)

/-- Claim C10: once a signal exists at a hook slot, every later
`$signal(initial)` call at that slot returns that same signal — same
read/write pair, same current value — the freshly supplied initial
value is discarded (the result does not depend on it), and the signal
array is left unchanged, so per-slot signal state is preserved across
every render/reload of the instance. -/
theorem signal_slot_reuse_discards_initial {V : Type}
    (signals : List (Option (Signal V))) (i : Nat) (s : Signal V)
    (initialValue : V) (h : signals[i]? = some (some s)) :
    dollarSignal signals i initialValue = (signals, i + 1, s) := by
  simp [dollarSignal, h]

/-- Concrete instantiation of `signal_slot_reuse_discards_initial`: slot
`0` holds a signal whose current value is `42` with one subscriber;
`$signal 0` returns that very signal (value still `42`, subscriber
kept) and discards the initial value `0`. -/
theorem signal_slot_reuse_discards_initial_witness :
    ([some (⟨42, [3]⟩ : Signal Nat)][0]? = some (some (⟨42, [3]⟩ : Signal Nat)))
    ∧ dollarSignal [some (⟨42, [3]⟩ : Signal Nat)] 0 0
        = ([some (⟨42, [3]⟩ : Signal Nat)], 1, (⟨42, [3]⟩ : Signal Nat)) :=
  ⟨rfl, signal_slot_reuse_discards_initial [some ⟨42, [3]⟩] 0 ⟨42, [3]⟩ 0 rfl⟩

end Pointlessly
